import Mathlib

/-!
Verification development for the Pill Reminder backend.

Shallow embedding of the HTTP API service in src/main.py together with the
schema declarations in src/schemas.py.  Stored documents are modelled as
structures whose non-identifier fields are optional, matching raw document
reads (`m.get(...)`).  The data-access layer (database.py) is not part of
src/, so its two generic operations are modelled from the spec, section 4.2.
Handlers are modelled as pure functions from the inputs the request supplies
plus the relevant database state to an `Except` of either an HTTPException
(status, detail) or an uncaught exception escaping an unwrapped handler.
-/

namespace PillReminder

/-- Python truthiness of an optional string: `None` and the empty string are
    falsy, every other string is truthy. -/
def truthy : Option String → Bool
  | none => false
  | some s => !s.isEmpty

/-- A proleptic-Gregorian calendar date, the date part of the Python
    `datetime` target used by the schedule computation. -/
structure PyDate where
  year : Nat
  month : Nat
  day : Nat
  deriving DecidableEq, Repr

/-- Modelled from Python's `datetime` library (external dependency):
    proleptic-Gregorian leap years. -/
def isLeapYear (y : Nat) : Bool :=
  y % 4 == 0 && (y % 100 != 0 || y % 400 == 0)

/-- Modelled from Python's `datetime` library: days in a month. -/
def daysInMonth (y m : Nat) : Nat :=
  if m == 2 then (if isLeapYear y then 29 else 28)
  else if m == 4 || m == 6 || m == 9 || m == 11 then 30
  else 31

/-- Days in the months of year `y` strictly before month `m`. -/
def daysBeforeMonth (y m : Nat) : Nat :=
  (List.range (m - 1)).foldl (fun acc i => acc + daysInMonth y (i + 1)) 0

/-- Modelled from Python's `date.toordinal`: day number counting from
    0001-01-01 = day 1. -/
def toordinal (d : PyDate) : Nat :=
  365 * (d.year - 1) + (d.year - 1) / 4 - (d.year - 1) / 100 + (d.year - 1) / 400
    + daysBeforeMonth d.year d.month + d.day

/-- Modelled from Python's `datetime.weekday`: 0 = Monday .. 6 = Sunday. -/
def pyWeekday (d : PyDate) : Nat := (toordinal d + 6) % 7

/-- Zero-pad a number to two digits, as Python's `date.isoformat` does for
    months and days. -/
def pad2 (n : Nat) : String := if n < 10 then "0" ++ toString n else toString n

/-- Zero-pad a number to four digits, as Python's `date.isoformat` does for
    years. -/
def pad4 (n : Nat) : String :=
  if n < 10 then "000" ++ toString n
  else if n < 100 then "00" ++ toString n
  else if n < 1000 then "0" ++ toString n
  else toString n

/-- Modelled from Python's `date.isoformat`: the `YYYY-MM-DD` rendering used
    for the `date` field of the schedule response. -/
def dateIsoformat (d : PyDate) : String :=
  pad4 d.year ++ "-" ++ pad2 d.month ++ "-" ++ pad2 d.day

/-- A stored medication document as fetched from the `medication` collection.
    `oid` stands for the store-assigned `_id` (always present, surfaced as a
    string); every other field may be missing from the raw document, which the
    handler reads with `m.get(...)`. -/
structure MedDoc where
  oid : String
  name : Option String
  dosage : Option String
  times : Option (List String)
  days : Option (List Int)
  active : Option Bool
  deriving DecidableEq, Repr

/-- A stored intake document from the `intake` collection; `oid` is the
    store-assigned `_id`. -/
structure IntakeDoc where
  oid : String
  medication_id : Option String
  time : Option String
  date : Option String
  taken_at : Option String
  deriving DecidableEq, Repr

/-- An intake document as returned to the caller: the internal identifier is
    renamed to the public `id` field (`d["id"] = str(d.pop("_id"))`). -/
structure IntakeOut where
  id : String
  medication_id : Option String
  time : Option String
  date : Option String
  taken_at : Option String
  deriving DecidableEq, Repr

/-- The identifier rename performed before returning stored intake
    documents. -/
def renameId (d : IntakeDoc) : IntakeOut :=
  ⟨d.oid, d.medication_id, d.time, d.date, d.taken_at⟩

/-- A stored caregiver-link document from the `caregiverlink` collection. -/
structure LinkDoc where
  oid : String
  token : String
  expires_at : Option String
  medication_ids : Option (List String)
  deriving DecidableEq, Repr

/-- One entry of the schedule response's `items` list (src/main.py lines
    137-142). -/
structure ScheduleItem where
  medication_id : String
  name : Option String
  dosage : Option String
  time : String
  deriving DecidableEq, Repr

/-- The schedule response `{"date", "weekday", "items"}` (src/main.py line
    144). -/
structure ScheduleResponse where
  date : String
  weekday : Nat
  items : List ScheduleItem
  deriving DecidableEq, Repr

/-- How a handler failure reaches the caller: an HTTPException carrying a
    status and a detail string, or an exception escaping a handler that has no
    try/except wrapper (surfaced by the framework without the error text). -/
inductive PyError where
  | http (status : Nat) (detail : String)
  | exn (msg : String)
  deriving DecidableEq, Repr

/-- Modelled from the spec, section 4.2 (database.py is not part of src/):
    the contents of the three collections, each either the full document list
    or a persistence failure (degraded mode when the database is
    unavailable). -/
structure Store where
  medication : Except String (List MedDoc)
  intake : Except String (List IntakeDoc)
  caregiverlink : Except String (List LinkDoc)

instance [DecidableEq ε] [DecidableEq α] : DecidableEq (Except ε α) := fun x y =>
  match x, y with
  | .ok a, .ok b => decidable_of_iff (a = b) (by simp)
  | .ok _, .error _ => isFalse (by simp)
  | .error _, .ok _ => isFalse (by simp)
  | .error a, .error b => decidable_of_iff (a = b) (by simp)

/-- Modelled from the spec, section 4.2: `get_documents(collection, filter)`
    returns every document of the collection matching the equality filter
    (passed here as the predicate the filter dictionary denotes), and fails
    with a persistence error when the database is unavailable. -/
def get_documents (contents : Except String (List α)) (filt : α → Bool) :
    Except String (List α) :=
  contents.map (fun docs => docs.filter filt)

/-- The items one medication document contributes for a weekday (src/main.py
    lines 132-142): `days` defaults to all seven days when the field is
    missing, `times` defaults to the empty list, and each entry of `times`
    yields one item carrying the identifier, name, dosage and time. -/
def medItems (weekday : Nat) (m : MedDoc) : List ScheduleItem :=
  if (weekday : Int) ∈ m.days.getD [0, 1, 2, 3, 4, 5, 6] then
    (m.times.getD []).map (fun t => ⟨m.oid, m.name, m.dosage, t⟩)
  else []

/-- The ascending-by-`time` comparison used to sort schedule items
    (`items.sort(key=lambda x: x["time"])`). -/
def timeLe (a b : ScheduleItem) : Prop := a.time ≤ b.time

instance : DecidableRel timeLe := fun a b =>
  decidable_of_iff (a.time.toList ≤ b.time.toList) String.le_iff_toList_le.symm

instance : IsTotal ScheduleItem timeLe := ⟨fun a b => le_total a.time b.time⟩

instance : IsTrans ScheduleItem timeLe := ⟨fun _ _ _ h h2 => le_trans h h2⟩

/-- `GET /api/schedule` (src/main.py `get_schedule`, lines 122-146).  The
    optional `date` parameter, once parsed by `datetime.fromisoformat` (or the
    current moment when absent), is passed as the resolved `target`.  The
    handler fetches the medications with `active = true`, expands their items
    for the target's weekday, and sorts the item list ascending by the `time`
    string; Python's `list.sort` is stable, and a stable sort's output is
    uniquely determined by the key order, so insertion sort computes the same
    list.  A fetch failure is caught by the handler's try/except wrapper and
    reported as HTTP 500 carrying the error text. -/
def get_schedule (target : PyDate) (s : Store) : Except PyError ScheduleResponse :=
  match get_documents s.medication (fun m => m.active == some true) with
  | .error e => .error (.http 500 e)
  | .ok meds =>
      let weekday := pyWeekday target
      let items := meds.flatMap (fun m => medItems weekday m)
      .ok ⟨dateIsoformat target, weekday, items.insertionSort timeLe⟩

/-- The schedule item list as claim C1 describes it: medications fetched with
    `active = true`, a medication included exactly when its day list
    (defaulting to all seven days) contains the weekday, one item per entry of
    its times list. -/
def claimItems (weekday : Nat) (meds : List MedDoc) : List ScheduleItem :=
  (meds.filter (fun m => m.active == some true)).flatMap (fun m =>
    if (weekday : Int) ∈ m.days.getD [0, 1, 2, 3, 4, 5, 6] then
      (m.times.getD []).map (fun t => ⟨m.oid, m.name, m.dosage, t⟩)
    else [])

/-- `_validate_share_token` (src/main.py lines 166-179), parametrised by the
    behaviour of the external `datetime.fromisoformat` (`parse`, returning
    `none` exactly when the library raises ValueError) and by the current
    moment `now`; timestamps are compared in an abstract ordered domain (Nat).
    The helper looks up links with the given token; an empty match list is a
    404, and a present, truthy `expires_at` that parses to a moment before
    `now` is a 410, while a parse failure is swallowed (the 410 HTTPException
    is not a ValueError, so the inner try/except does not catch it).  The
    caregiverlink fetch itself has no try/except wrapper anywhere up the call
    chain, so its failure escapes as an uncaught exception. -/
def validate_share_token (parse : String → Option Nat) (now : Nat)
    (s : Store) (token : String) : Except PyError LinkDoc :=
  match get_documents s.caregiverlink (fun l => l.token == token) with
  | .error e => .error (.exn e)
  | .ok links =>
      match links with
      | [] => .error (.http 404 "Share link not found")
      | link :: _ =>
          match link.expires_at with
          | none => .ok link
          | some ea =>
              if ea.isEmpty then .ok link
              else
                match parse ea with
                | none => .ok link
                | some ts =>
                    if ts < now then .error (.http 410 "Share link expired")
                    else .ok link

/-- `GET /api/share/{token}/schedule` (src/main.py `shared_schedule`, lines
    181-189): validates the token, reuses the schedule computation, and when
    the link's restriction set is non-empty keeps only the items whose
    `medication_id` it contains (`link.get("medication_ids") or []`). -/
def shared_schedule (parse : String → Option Nat) (now : Nat) (s : Store)
    (token : String) (target : PyDate) : Except PyError ScheduleResponse :=
  match validate_share_token parse now s token with
  | .error e => .error e
  | .ok link =>
      let allowed := link.medication_ids.getD []
      match get_schedule target s with
      | .error e => .error e
      | .ok sched =>
          if allowed.isEmpty then .ok sched
          else .ok { sched with
            items := sched.items.filter (fun i => allowed.contains i.medication_id) }

/-- The equality filter built from the optional `date` and `medication_id`
    query parameters (src/main.py lines 107-111 and 197-201): a parameter is
    added to the filter only when it is supplied and truthy, and a document
    matches when every filtered field equals the parameter's value. -/
def intakeMatches (date medication_id : Option String) (d : IntakeDoc) : Bool :=
  (match date with
   | some v => if v.isEmpty then true else d.date == some v
   | none => true) &&
  (match medication_id with
   | some v => if v.isEmpty then true else d.medication_id == some v
   | none => true)

/-- The restriction applied to fetched intake documents when the link carries
    a non-empty `medication_ids` set (src/main.py lines 204-205): keep the
    documents whose `medication_id` field is present and in the set. -/
def restrictDocs (allowed : List String) (docs : List IntakeDoc) : List IntakeDoc :=
  if allowed.isEmpty then docs
  else docs.filter (fun d =>
    match d.medication_id with
    | some v => allowed.contains v
    | none => false)

/-- `GET /api/share/{token}/intakes` (src/main.py `shared_intakes`, lines
    191-211): validates the token; a truthy `medication_id` parameter outside
    a non-empty restriction set is a 403; otherwise fetches intakes through
    the equality filter, restricts them when the link carries a restriction,
    and renames identifiers.  The fetch has no try/except wrapper, so its
    failure escapes as an uncaught exception. -/
def shared_intakes (parse : String → Option Nat) (now : Nat) (s : Store)
    (token : String) (medication_id date : Option String) :
    Except PyError (List IntakeOut) :=
  match validate_share_token parse now s token with
  | .error e => .error e
  | .ok link =>
      let allowed := link.medication_ids.getD []
      if !allowed.isEmpty && truthy medication_id
          && !allowed.contains (medication_id.getD "") then
        .error (.http 403 "Not permitted for this medication")
      else
        match get_documents s.intake (intakeMatches date medication_id) with
        | .error e => .error (.exn e)
        | .ok docs => .ok ((restrictDocs allowed docs).map renameId)

/-- The body returned by the create endpoints (`{"id": <assigned id>}`). -/
structure CreatedId where
  id : String
  deriving DecidableEq, Repr

/-- `POST /api/medications` (src/main.py `create_medication`, lines 76-82):
    the handler only calls `create_document` and wraps any failure as HTTP 500
    carrying the error text.  The outcome of `create_document` (modelled from
    the spec, section 4.2, since database.py is not part of src/) is passed as
    `res`: the assigned identifier, or the validation/persistence error
    text. -/
def create_medication (res : Except String String) : Except PyError CreatedId :=
  match res with
  | .ok med_id => .ok ⟨med_id⟩
  | .error e => .error (.http 500 e)

/-- `POST /api/intakes` (src/main.py `log_intake`, lines 96-102): same shape
    as `create_medication` — the handler calls `create_document` on the
    `intake` collection and wraps any failure as HTTP 500 carrying the error
    text.  `res` is the `create_document` outcome. -/
def log_intake (res : Except String String) : Except PyError CreatedId :=
  match res with
  | .ok intake_id => .ok ⟨intake_id⟩
  | .error e => .error (.http 500 e)

/-- The `MedicationOut` response model (src/main.py lines 62-63): the
    Medication schema of src/schemas.py plus the public `id`.  The optional
    free-text `notes` field is elided here exactly as in `MedDoc` (the
    modelled stored-document space omits it): it carries no required
    constraint and no handler logic reads it. -/
structure MedicationOut where
  id : String
  name : String
  dosage : String
  times : List String
  days : List Int
  active : Bool
  deriving DecidableEq, Repr

/-- Pydantic validation performed by `MedicationOut(**d)` (src/main.py line
    91): `name`, `dosage` and `times` are required, `days` and `active` take
    their schema defaults when absent; a missing required field raises a
    ValidationError, whose message text is abstracted here as a fixed
    string. -/
def medicationOutOf (d : MedDoc) : Except String MedicationOut :=
  match d.name, d.dosage, d.times with
  | some n, some dg, some ts =>
      .ok ⟨d.oid, n, dg, ts, d.days.getD [0, 1, 2, 3, 4, 5, 6], d.active.getD true⟩
  | _, _, _ => .error "validation error for MedicationOut"

/-- `GET /api/medications` (src/main.py `list_medications`, lines 84-94):
    fetches every medication document (no filter), renames the identifier and
    validates each document against `MedicationOut`; the loop stops at the
    first validation failure, and both fetch and validation failures are
    wrapped as HTTP 500 carrying the error text. -/
def list_medications (s : Store) : Except PyError (List MedicationOut) :=
  match get_documents s.medication (fun _ => true) with
  | .error e => .error (.http 500 e)
  | .ok docs =>
      match docs.mapM medicationOutOf with
      | .error e => .error (.http 500 e)
      | .ok result => .ok result

/-- The `IntakeOut` response model (src/main.py lines 68-69): the Intake
    schema of src/schemas.py plus the public `id`.  (Distinct from
    `IntakeOut`, which models the raw renamed dictionaries that
    `shared_intakes` returns without pydantic validation.) -/
structure IntakeOutModel where
  id : String
  medication_id : String
  time : String
  date : String
  taken_at : Option String
  deriving DecidableEq, Repr

/-- Pydantic validation performed by `IntakeOut(**d)` (src/main.py line 116):
    `medication_id`, `time` and `date` are required, `taken_at` defaults to
    None; the ValidationError message text is abstracted as a fixed
    string. -/
def intakeOutOf (d : IntakeDoc) : Except String IntakeOutModel :=
  match d.medication_id, d.time, d.date with
  | some m, some t, some dt => .ok ⟨d.oid, m, t, dt, d.taken_at⟩
  | _, _, _ => .error "validation error for IntakeOut"

/-- `GET /api/intakes` (src/main.py `list_intakes`, lines 104-119): builds
    the truthiness-gated equality filter from the optional `medication_id` and
    `date` parameters (the code adds `medication_id` first and `date` second;
    `intakeMatches` conjoins the same two equality tests, and conjunction
    order is immaterial), fetches the matching documents, renames identifiers
    and validates each against `IntakeOut`, wrapping fetch and validation
    failures as HTTP 500 carrying the error text. -/
def list_intakes (medication_id date : Option String) (s : Store) :
    Except PyError (List IntakeOutModel) :=
  match get_documents s.intake (intakeMatches date medication_id) with
  | .error e => .error (.http 500 e)
  | .ok docs =>
      match docs.mapM intakeOutOf with
      | .error e => .error (.http 500 e)
      | .ok result => .ok result

/-- The `ShareCreate` request body (src/main.py lines 71-73). -/
structure ShareCreate where
  medication_ids : Option (List String)
  expires_at : Option String
  deriving DecidableEq, Repr

/-- The CaregiverLink document built by `create_share_link` before the store
    assigns an identifier (src/main.py lines 153-158). -/
structure NewLinkDoc where
  token : String
  read_only : Bool
  expires_at : Option String
  medication_ids : Option (List String)
  deriving DecidableEq, Repr

/-- The share token: the hex digest of `uuid.uuid4()` (an external random
    source, passed as the character list `hexDigest`) truncated to its first
    12 characters (src/main.py line 152). -/
def shareToken (hexDigest : List Char) : String := String.mk (hexDigest.take 12)

/-- The document persisted by `create_share_link` (src/main.py lines
    153-158). -/
def shareDoc (hexDigest : List Char) (payload : ShareCreate) : NewLinkDoc :=
  ⟨shareToken hexDigest, true, payload.expires_at, payload.medication_ids⟩

/-- The base URL for share links (src/main.py line 160):
    `os.getenv("FRONTEND_URL") or os.getenv("PUBLIC_FRONTEND_URL") or ""`,
    the first truthy value of the chain. -/
def shareBase (frontend_url public_frontend_url : Option String) : String :=
  if truthy frontend_url then frontend_url.getD ""
  else if truthy public_frontend_url then public_frontend_url.getD ""
  else ""

/-- The body returned by `create_share_link`. -/
structure ShareResponse where
  token : String
  url : String
  deriving DecidableEq, Repr

/-- `POST /api/share/create` (src/main.py `create_share_link`, lines
    149-163): persists the share document and returns the token together with
    the constructed URL; any failure is wrapped as HTTP 500 with the error
    text.  `createRes` is the outcome of `create_document` on the
    `caregiverlink` collection. -/
def create_share_link (hexDigest : List Char)
    (frontend_url public_frontend_url : Option String) (payload : ShareCreate)
    (createRes : Except String String) : Except PyError ShareResponse :=
  let _doc := shareDoc hexDigest payload
  match createRes with
  | .error e => .error (.http 500 e)
  | .ok _ =>
      let token := shareToken hexDigest
      let base := shareBase frontend_url public_frontend_url
      .ok ⟨token, if base.isEmpty then token else base ++ "/?share=" ++ token⟩

/-- A database handle as probed by the diagnostics endpoint: its `name`
    attribute when present, and the outcome of `list_collection_names()`
    (the listed names, or the text of the exception the call raises). -/
structure DBHandle where
  name : Option String
  collection_names : Except String (List String)

/-- The diagnostics snapshot returned by `GET /test`.  The `database_url` and
    `database_name` fields start as `None` and may be written twice. -/
structure TestResponse where
  backend : String
  database : String
  database_url : Option String
  database_name : Option String
  connection_status : String
  collections : List String
  deriving DecidableEq, Repr

/-- `GET /test` (src/main.py `test_database`, lines 26-56): builds the
    response dictionary, probes the handle (`db is not None`), escalates or
    degrades the `database` field according to `list_collection_names()`, and
    finally recomputes `database_url` and `database_name` unconditionally from
    the environment (`database_url_env`, `database_name_env` model
    `os.getenv("DATABASE_URL")` and `os.getenv("DATABASE_NAME")`).  Nothing in
    the probe can raise outside the inner try, so the outer except branch
    (`"❌ Error: ..."`) is unreachable and does not appear. -/
def test_database (db : Option DBHandle)
    (database_url_env database_name_env : Option String) : TestResponse :=
  let r : TestResponse := ⟨"✅ Running", "❌ Not Available", none, none, "Not Connected", []⟩
  let r :=
    match db with
    | some h =>
        let r := { r with
          database := "✅ Available"
          database_url := some (if truthy database_url_env then "✅ Set" else "❌ Not Set")
          database_name := some (match h.name with | some n => n | none => "✅ Connected")
          connection_status := "Connected" }
        match h.collection_names with
        | .ok cols => { r with collections := cols.take 10, database := "✅ Connected & Working" }
        | .error e => { r with database := "⚠️  Connected but Error: " ++ e.take 50 }
    | none => { r with database := "⚠️  Available but not initialized" }
  { r with
    database_url := some (if truthy database_url_env then "✅ Set" else "❌ Not Set")
    database_name := some (if truthy database_name_env then "✅ Set" else "❌ Not Set") }

/-- The schema classes declared by src/schemas.py: only `Medication` and
    `Intake` are defined there. -/
def schemasDeclared : List String := ["Medication", "Intake"]

/-- The names imported from the schemas module by src/main.py line 10:
    `from schemas import Medication, Intake, CaregiverLink`. -/
def mainSchemasImported : List String := ["Medication", "Intake", "CaregiverLink"]

/-! ## Theorems -/

/-- Claim C1: for every target date, the schedule operation fetches only
    medications with `active = true`, includes a medication's items exactly
    when its day list (defaulting to all seven days when the field is missing)
    contains the target date's weekday (Monday = 0 .. Sunday = 6, the Python
    convention embedded in `pyWeekday`), contributes one item per entry of the
    medication's times list carrying identifier, name, dosage and time, and
    returns the item list sorted ascending by the time string inside a
    response of the form date/weekday/items. -/
theorem get_schedule_spec (target : PyDate) (meds : List MedDoc)
    (si : Except String (List IntakeDoc)) (sc : Except String (List LinkDoc))
    (r : ScheduleResponse)
    (h : get_schedule target ⟨.ok meds, si, sc⟩ = .ok r) :
    r.date = dateIsoformat target ∧
    r.weekday = pyWeekday target ∧
    r.items.Pairwise timeLe ∧
    r.items.Perm (claimItems (pyWeekday target) meds) := by
  have hr : r = ⟨dateIsoformat target, pyWeekday target,
      (claimItems (pyWeekday target) meds).insertionSort timeLe⟩ := by
    simp only [get_schedule, get_documents, Except.map, medItems, claimItems] at h
    exact (Except.ok.inj h).symm
  subst hr
  exact ⟨rfl, rfl, List.sorted_insertionSort timeLe _, List.perm_insertionSort timeLe _⟩

/-- Witness for C1 at a concrete store: 2024-01-03 is a Wednesday (weekday 2);
    a medication active on days 0, 2, 4 contributes its two times, one with a
    missing day list contributes its single earlier time first, and an
    inactive one contributes nothing. -/
theorem get_schedule_spec_witness :
    ((⟨"2024-01-03", 2,
        [⟨"m2", some "B", some "5ml", "07:30"⟩,
         ⟨"m1", some "Asp", some "1 pill", "08:00"⟩,
         ⟨"m1", some "Asp", some "1 pill", "20:00"⟩]⟩ : ScheduleResponse).date
        = dateIsoformat ⟨2024, 1, 3⟩) ∧
    (⟨"2024-01-03", 2,
        [⟨"m2", some "B", some "5ml", "07:30"⟩,
         ⟨"m1", some "Asp", some "1 pill", "08:00"⟩,
         ⟨"m1", some "Asp", some "1 pill", "20:00"⟩]⟩ : ScheduleResponse).weekday
        = pyWeekday ⟨2024, 1, 3⟩ ∧
    (⟨"2024-01-03", 2,
        [⟨"m2", some "B", some "5ml", "07:30"⟩,
         ⟨"m1", some "Asp", some "1 pill", "08:00"⟩,
         ⟨"m1", some "Asp", some "1 pill", "20:00"⟩]⟩ : ScheduleResponse).items.Pairwise timeLe ∧
    (⟨"2024-01-03", 2,
        [⟨"m2", some "B", some "5ml", "07:30"⟩,
         ⟨"m1", some "Asp", some "1 pill", "08:00"⟩,
         ⟨"m1", some "Asp", some "1 pill", "20:00"⟩]⟩ : ScheduleResponse).items.Perm
      (claimItems (pyWeekday ⟨2024, 1, 3⟩)
        [⟨"m1", some "Asp", some "1 pill", some ["08:00", "20:00"], some [0, 2, 4], some true⟩,
         ⟨"m2", some "B", some "5ml", some ["07:30"], none, some true⟩,
         ⟨"m3", some "C", none, some ["06:00"], none, some false⟩]) :=
  get_schedule_spec ⟨2024, 1, 3⟩
    [⟨"m1", some "Asp", some "1 pill", some ["08:00", "20:00"], some [0, 2, 4], some true⟩,
     ⟨"m2", some "B", some "5ml", some ["07:30"], none, some true⟩,
     ⟨"m3", some "C", none, some ["06:00"], none, some false⟩]
    (.ok []) (.ok []) _ (by decide)

/-- Claim C10: a stored medication that lacks a `times` field entirely
    contributes zero items and causes no failure — removing it from the store
    leaves the schedule response unchanged, and the computation still
    succeeds. -/
theorem missing_times_contributes_nothing (target : PyDate)
    (pre post : List MedDoc) (m : MedDoc)
    (si : Except String (List IntakeDoc)) (sc : Except String (List LinkDoc))
    (hm : m.times = none) :
    get_schedule target ⟨.ok (pre ++ m :: post), si, sc⟩ =
      get_schedule target ⟨.ok (pre ++ post), si, sc⟩ ∧
    ∃ r, get_schedule target ⟨.ok (pre ++ post), si, sc⟩ = .ok r := by
  have h0 : medItems (pyWeekday target) m = [] := by
    simp [medItems, hm]
  constructor
  · simp only [get_schedule, get_documents, Except.map]
    simp only [List.filter_append, List.filter_cons]
    split
    · simp [List.flatMap_append, List.flatMap_cons, h0]
    · rfl
  · exact ⟨_, rfl⟩

/-- Witness for C10: a concrete active medication with no `times` field,
    matching weekday, inserted between two other medications. -/
theorem missing_times_contributes_nothing_witness :
    get_schedule ⟨2024, 1, 1⟩
        ⟨.ok ([⟨"m1", some "A", none, some ["09:00"], none, some true⟩] ++
          ⟨"m2", some "B", none, none, some [0], some true⟩ ::
          [⟨"m3", some "C", none, some ["07:00"], none, some true⟩]), .ok [], .ok []⟩ =
      get_schedule ⟨2024, 1, 1⟩
        ⟨.ok ([⟨"m1", some "A", none, some ["09:00"], none, some true⟩] ++
          [⟨"m3", some "C", none, some ["07:00"], none, some true⟩]), .ok [], .ok []⟩ ∧
    ∃ r, get_schedule ⟨2024, 1, 1⟩
        ⟨.ok ([⟨"m1", some "A", none, some ["09:00"], none, some true⟩] ++
          [⟨"m3", some "C", none, some ["07:00"], none, some true⟩]), .ok [], .ok []⟩ = .ok r :=
  missing_times_contributes_nothing ⟨2024, 1, 1⟩
    [⟨"m1", some "A", none, some ["09:00"], none, some true⟩]
    [⟨"m3", some "C", none, some ["07:00"], none, some true⟩]
    ⟨"m2", some "B", none, none, some [0], some true⟩
    (.ok []) (.ok []) rfl

/-- Claim C3: share-token validation 404s exactly when no stored link matches
    the token, 410s exactly when the matched link (the first match) carries a
    present `expires_at` that parses to a moment earlier than now, and
    succeeds, treating the link as non-expiring, when `expires_at` is present
    but fails to parse.  `parse` models `datetime.fromisoformat`, which
    rejects the empty string (`hparse`). -/
theorem validate_share_token_spec (parse : String → Option Nat) (now : Nat)
    (sm : Except String (List MedDoc)) (si : Except String (List IntakeDoc))
    (links : List LinkDoc) (token : String)
    (hparse : parse "" = none) :
    (validate_share_token parse now ⟨sm, si, .ok links⟩ token
        = .error (.http 404 "Share link not found")
      ↔ links.filter (fun l => l.token == token) = []) ∧
    (validate_share_token parse now ⟨sm, si, .ok links⟩ token
        = .error (.http 410 "Share link expired")
      ↔ ∃ l, (links.filter (fun l => l.token == token)).head? = some l ∧
          ∃ ea ts, l.expires_at = some ea ∧ parse ea = some ts ∧ ts < now) ∧
    (∀ l ea, (links.filter (fun l => l.token == token)).head? = some l →
        l.expires_at = some ea → parse ea = none →
        validate_share_token parse now ⟨sm, si, .ok links⟩ token = .ok l) := by
  rcases hF : links.filter (fun l => l.token == token) with _ | ⟨l, rest⟩
  · have hV : validate_share_token parse now ⟨sm, si, .ok links⟩ token
        = .error (.http 404 "Share link not found") := by
      simp [validate_share_token, get_documents, Except.map, hF]
    refine ⟨by simp [hV, hF], by simp [hV, hF], ?_⟩
    intro l2 ea h
    rw [hF] at h
    simp at h
  · rcases hE : l.expires_at with _ | ea
    · have hV : validate_share_token parse now ⟨sm, si, .ok links⟩ token = .ok l := by
        simp [validate_share_token, get_documents, Except.map, hF, hE]
      refine ⟨by simp [hV, hF], by simp [hV, hF, hE], ?_⟩
      intro l2 ea2 h he hp
      rw [hF] at h
      simp only [List.head?_cons, Option.some.injEq] at h
      subst h
      exact hV
    · cases hemp : ea.isEmpty
      · rcases hP : parse ea with _ | ts
        · have hV : validate_share_token parse now ⟨sm, si, .ok links⟩ token = .ok l := by
            simp [validate_share_token, get_documents, Except.map, hF, hE, hemp, hP]
          refine ⟨by simp [hV, hF], by simp [hV, hF, hE, hP], ?_⟩
          intro l2 ea2 h he hp
          rw [hF] at h
          simp only [List.head?_cons, Option.some.injEq] at h
          subst h
          exact hV
        · by_cases hlt : ts < now
          · have hV : validate_share_token parse now ⟨sm, si, .ok links⟩ token
                = .error (.http 410 "Share link expired") := by
              simp [validate_share_token, get_documents, Except.map, hF, hE, hemp, hP, hlt]
            refine ⟨by simp [hV, hF], ?_, ?_⟩
            · rw [hV]
              simp only [true_iff]
              exact ⟨l, by rw [hF]; rfl, ea, ts, hE, hP, hlt⟩
            · intro l2 ea2 h he hp
              rw [hF] at h
              simp only [List.head?_cons, Option.some.injEq] at h
              subst h
              rw [hE] at he
              obtain rfl : ea = ea2 := Option.some.inj he
              rw [hP] at hp
              exact Option.noConfusion hp
          · have hV : validate_share_token parse now ⟨sm, si, .ok links⟩ token = .ok l := by
              simp [validate_share_token, get_documents, Except.map, hF, hE, hemp, hP, hlt]
            refine ⟨by simp [hV, hF], by simp [hV, hF, hE, hP, hlt], ?_⟩
            intro l2 ea2 h he hp
            rw [hF] at h
            simp only [List.head?_cons, Option.some.injEq] at h
            subst h
            exact hV
      · have hea0 : ea = "" := (String.isEmpty_iff ea).mp (by rw [hemp])
        have hV : validate_share_token parse now ⟨sm, si, .ok links⟩ token = .ok l := by
          simp [validate_share_token, get_documents, Except.map, hF, hE, hemp]
        refine ⟨by simp [hV, hF], by simp [hV, hF, hE, hea0, hparse], ?_⟩
        intro l2 ea2 h he hp
        rw [hF] at h
        simp only [List.head?_cons, Option.some.injEq] at h
        subst h
        exact hV

/-- Witness for C3 at a concrete store: one stored link whose token matches
    and whose expiry parses to a moment before now, with a parser that rejects
    the empty string. -/
theorem validate_share_token_spec_witness :
    (validate_share_token (fun s => if s = "2020-01-01T00:00:00" then some 5 else none) 10
        ⟨.ok [], .ok [], .ok [⟨"id1", "tok", some "2020-01-01T00:00:00", none⟩]⟩ "tok"
        = .error (.http 404 "Share link not found")
      ↔ [(⟨"id1", "tok", some "2020-01-01T00:00:00", none⟩ : LinkDoc)].filter
          (fun l => l.token == "tok") = []) ∧
    (validate_share_token (fun s => if s = "2020-01-01T00:00:00" then some 5 else none) 10
        ⟨.ok [], .ok [], .ok [⟨"id1", "tok", some "2020-01-01T00:00:00", none⟩]⟩ "tok"
        = .error (.http 410 "Share link expired")
      ↔ ∃ l, ([(⟨"id1", "tok", some "2020-01-01T00:00:00", none⟩ : LinkDoc)].filter
            (fun l => l.token == "tok")).head? = some l ∧
          ∃ ea ts, l.expires_at = some ea ∧
            (fun s => if s = "2020-01-01T00:00:00" then some 5 else none) ea = some ts ∧
            ts < 10) ∧
    (∀ l ea, ([(⟨"id1", "tok", some "2020-01-01T00:00:00", none⟩ : LinkDoc)].filter
          (fun l => l.token == "tok")).head? = some l →
        l.expires_at = some ea →
        (fun s => if s = "2020-01-01T00:00:00" then some 5 else none) ea = none →
        validate_share_token (fun s => if s = "2020-01-01T00:00:00" then some 5 else none) 10
          ⟨.ok [], .ok [], .ok [⟨"id1", "tok", some "2020-01-01T00:00:00", none⟩]⟩ "tok"
          = .ok l) :=
  validate_share_token_spec (fun s => if s = "2020-01-01T00:00:00" then some 5 else none) 10
    (.ok []) (.ok []) [⟨"id1", "tok", some "2020-01-01T00:00:00", none⟩] "tok" (by decide)

/-- Claim C2: for a valid share token, the shared schedule returns exactly
    the ordinary schedule when the link's `medication_ids` is absent or empty,
    and otherwise the same response with the item list restricted to the
    medications the link names. -/
theorem shared_schedule_spec (parse : String → Option Nat) (now : Nat)
    (s : Store) (token : String) (target : PyDate) (link : LinkDoc)
    (sched : ScheduleResponse)
    (hv : validate_share_token parse now s token = .ok link)
    (hs : get_schedule target s = .ok sched) :
    (link.medication_ids.getD [] = [] →
      shared_schedule parse now s token target = .ok sched) ∧
    (∀ mids, link.medication_ids = some mids → mids ≠ [] →
      shared_schedule parse now s token target =
        .ok { sched with
          items := sched.items.filter (fun i => mids.contains i.medication_id) }) := by
  constructor
  · intro h
    simp [shared_schedule, hv, hs, h]
  · intro mids hm hne
    have hemp : mids.isEmpty = false := by
      cases mids with
      | nil => exact absurd rfl hne
      | cons a t => rfl
    simp [shared_schedule, hv, hs, hm, hemp]

/-- Witness for C2: a link restricted to medication "A" over a store holding
    active medications "A" and "B". -/
theorem shared_schedule_spec_witness :
    ((⟨"idL", "tok", none, some ["A"]⟩ : LinkDoc).medication_ids.getD [] = [] →
      shared_schedule (fun _ => none) 0
        ⟨.ok [⟨"A", some "Med A", none, some ["08:00"], none, some true⟩,
              ⟨"B", some "Med B", none, some ["09:00"], none, some true⟩],
         .ok [], .ok [⟨"idL", "tok", none, some ["A"]⟩]⟩ "tok" ⟨2024, 1, 1⟩ =
        .ok ⟨"2024-01-01", 0,
          [⟨"A", some "Med A", none, "08:00"⟩, ⟨"B", some "Med B", none, "09:00"⟩]⟩) ∧
    (∀ mids, (⟨"idL", "tok", none, some ["A"]⟩ : LinkDoc).medication_ids = some mids →
      mids ≠ [] →
      shared_schedule (fun _ => none) 0
        ⟨.ok [⟨"A", some "Med A", none, some ["08:00"], none, some true⟩,
              ⟨"B", some "Med B", none, some ["09:00"], none, some true⟩],
         .ok [], .ok [⟨"idL", "tok", none, some ["A"]⟩]⟩ "tok" ⟨2024, 1, 1⟩ =
        .ok { (⟨"2024-01-01", 0,
            [⟨"A", some "Med A", none, "08:00"⟩, ⟨"B", some "Med B", none, "09:00"⟩]⟩ :
              ScheduleResponse) with
          items := [⟨"A", some "Med A", none, "08:00"⟩,
              ⟨"B", some "Med B", none, "09:00"⟩].filter
            (fun i => mids.contains i.medication_id) }) :=
  shared_schedule_spec (fun _ => none) 0
    ⟨.ok [⟨"A", some "Med A", none, some ["08:00"], none, some true⟩,
          ⟨"B", some "Med B", none, some ["09:00"], none, some true⟩],
     .ok [], .ok [⟨"idL", "tok", none, some ["A"]⟩]⟩ "tok" ⟨2024, 1, 1⟩
    ⟨"idL", "tok", none, some ["A"]⟩
    ⟨"2024-01-01", 0, [⟨"A", some "Med A", none, "08:00"⟩, ⟨"B", some "Med B", none, "09:00"⟩]⟩
    (by decide) (by decide)

/-- Claim C4: for a valid share token, shared intakes fails with 403 exactly
    when the link carries a non-empty restriction and the caller supplied a
    (truthy) `medication_id` outside it; otherwise it returns the intakes
    matching the equality filter built from the parameters, restricted to the
    link's medication set when one is present, with identifiers renamed. -/
theorem shared_intakes_spec (parse : String → Option Nat) (now : Nat)
    (sm : Except String (List MedDoc)) (intakes : List IntakeDoc)
    (sc : Except String (List LinkDoc)) (token : String)
    (medication_id date : Option String) (link : LinkDoc)
    (hv : validate_share_token parse now ⟨sm, .ok intakes, sc⟩ token = .ok link) :
    (shared_intakes parse now ⟨sm, .ok intakes, sc⟩ token medication_id date
        = .error (.http 403 "Not permitted for this medication")
      ↔ link.medication_ids.getD [] ≠ [] ∧
        ∃ v, medication_id = some v ∧ v ≠ "" ∧ v ∉ link.medication_ids.getD []) ∧
    ((link.medication_ids.getD [] = [] ∨
        ∀ v, medication_id = some v → v ≠ "" → v ∈ link.medication_ids.getD []) →
      shared_intakes parse now ⟨sm, .ok intakes, sc⟩ token medication_id date
        = .ok ((restrictDocs (link.medication_ids.getD [])
            (intakes.filter (intakeMatches date medication_id))).map renameId)) := by
  have hok : shared_intakes parse now ⟨sm, .ok intakes, sc⟩ token medication_id date
      = (if !(link.medication_ids.getD []).isEmpty && truthy medication_id
            && !(link.medication_ids.getD []).contains (medication_id.getD "") then
          .error (.http 403 "Not permitted for this medication")
        else
          .ok ((restrictDocs (link.medication_ids.getD [])
            (intakes.filter (intakeMatches date medication_id))).map renameId)) := by
    simp [shared_intakes, hv, get_documents, Except.map]
  rw [hok]
  by_cases hA : (link.medication_ids.getD []).isEmpty
  · have hAe : link.medication_ids.getD [] = [] := List.isEmpty_iff.mp hA
    rw [hA]
    simp [hAe]
  · have hAne : link.medication_ids.getD [] ≠ [] := fun h => hA (by rw [h]; rfl)
    have hA2 : (link.medication_ids.getD []).isEmpty = false := by
      cases h : (link.medication_ids.getD []).isEmpty
      · rfl
      · exact absurd h hA
    rw [hA2]
    cases medication_id with
    | none => simp [truthy]
    | some v =>
        cases hv0 : v.isEmpty with
        | true =>
            have hv00 : v = "" := (String.isEmpty_iff v).mp (by rw [hv0])
            subst hv00
            simp [truthy, hv0]
        | false =>
            have hvne : v ≠ "" := fun h => by rw [h] at hv0; exact Bool.noConfusion hv0
            cases hc : (link.medication_ids.getD []).contains v with
            | true =>
                have hmem : v ∈ link.medication_ids.getD [] :=
                  List.mem_of_elem_eq_true hc
                simp [truthy, hv0, Option.getD_some, hc, hmem]
            | false =>
                have hnmem : v ∉ link.medication_ids.getD [] := by
                  intro hm
                  have hc2 : List.elem v (link.medication_ids.getD []) = false := hc
                  rw [List.elem_eq_true_of_mem hm] at hc2
                  exact Bool.noConfusion hc2
                constructor
                · simp only [truthy, hv0, Option.getD_some, hc]
                  simp only [Bool.not_false, Bool.and_true, Bool.not_true, Bool.and_false]
                  constructor
                  · intro _
                    exact ⟨hAne, v, rfl, hvne, hnmem⟩
                  · intro _
                    simp
                · intro h
                  rcases h with h | h
                  · exact absurd h hAne
                  · exact absurd (h v rfl hvne) hnmem

/-- Witness for C4: a link restricted to medication "A", no `medication_id`
    parameter, over a store holding intakes for medications "A" and "B". -/
theorem shared_intakes_spec_witness :
    (shared_intakes (fun _ => none) 0
        ⟨.ok [], .ok [⟨"i1", some "A", some "08:00", some "2024-01-01", none⟩,
                      ⟨"i2", some "B", some "09:00", some "2024-01-01", none⟩],
         .ok [⟨"idL", "tok", none, some ["A"]⟩]⟩ "tok" none none
        = .error (.http 403 "Not permitted for this medication")
      ↔ (⟨"idL", "tok", none, some ["A"]⟩ : LinkDoc).medication_ids.getD [] ≠ [] ∧
        ∃ v, (none : Option String) = some v ∧ v ≠ "" ∧
          v ∉ (⟨"idL", "tok", none, some ["A"]⟩ : LinkDoc).medication_ids.getD []) ∧
    (((⟨"idL", "tok", none, some ["A"]⟩ : LinkDoc).medication_ids.getD [] = [] ∨
        ∀ v, (none : Option String) = some v → v ≠ "" →
          v ∈ (⟨"idL", "tok", none, some ["A"]⟩ : LinkDoc).medication_ids.getD []) →
      shared_intakes (fun _ => none) 0
        ⟨.ok [], .ok [⟨"i1", some "A", some "08:00", some "2024-01-01", none⟩,
                      ⟨"i2", some "B", some "09:00", some "2024-01-01", none⟩],
         .ok [⟨"idL", "tok", none, some ["A"]⟩]⟩ "tok" none none
        = .ok ((restrictDocs ((⟨"idL", "tok", none, some ["A"]⟩ : LinkDoc).medication_ids.getD [])
            ([⟨"i1", some "A", some "08:00", some "2024-01-01", none⟩,
              ⟨"i2", some "B", some "09:00", some "2024-01-01", none⟩].filter
              (intakeMatches none none))).map renameId)) :=
  shared_intakes_spec (fun _ => none) 0 (.ok [])
    [⟨"i1", some "A", some "08:00", some "2024-01-01", none⟩,
     ⟨"i2", some "B", some "09:00", some "2024-01-01", none⟩]
    (.ok [⟨"idL", "tok", none, some ["A"]⟩]) "tok" none none
    ⟨"idL", "tok", none, some ["A"]⟩ (by decide)

lemma connectedError_ne (x : String) :
    "⚠️  Connected but Error: " ++ x ≠ "❌ Not Available" := by
  intro h
  have hlen := congrArg String.length h
  rw [String.length_append] at hlen
  have h1 : ("❌ Not Available").length < ("⚠️  Connected but Error: ").length := by decide
  omega

/-- Counterexample to claim C5: with no database handle at all (`db is None`,
    the only "no handle" state the code distinguishes), the `database` field is
    "⚠️  Available but not initialized", not "❌ Not Available" as claimed. -/
theorem test_database_none_counterexample :
    (test_database none none none).database = "⚠️  Available but not initialized" ∧
    (test_database none none none).database ≠ "❌ Not Available" := by decide

/-- Claim C5 as amended: the probe checks only `db is not None`.  A `None`
    handle yields "⚠️  Available but not initialized"; a present handle yields
    "✅ Available", escalated to "✅ Connected & Working" when listing
    collection names succeeds and degraded to "⚠️  Connected but Error: ..."
    when it fails; the initial "❌ Not Available" is always overwritten. -/
theorem test_database_database_field (nm : Option String)
    (url name : Option String) (e : String) (cols : List String) :
    (test_database none url name).database = "⚠️  Available but not initialized" ∧
    (test_database (some ⟨nm, .ok cols⟩) url name).database = "✅ Connected & Working" ∧
    (test_database (some ⟨nm, .error e⟩) url name).database
      = "⚠️  Connected but Error: " ++ e.take 50 ∧
    (∀ db : Option DBHandle, (test_database db url name).database ≠ "❌ Not Available") := by
  refine ⟨rfl, rfl, rfl, ?_⟩
  intro db
  cases db with
  | none =>
      have hdb : (test_database none url name).database
          = "⚠️  Available but not initialized" := rfl
      rw [hdb]
      decide
  | some h =>
      obtain ⟨hn, hc⟩ := h
      cases hc with
      | ok cols2 =>
          have hdb : (test_database (some ⟨hn, .ok cols2⟩) url name).database
              = "✅ Connected & Working" := rfl
          rw [hdb]
          decide
      | error e2 => exact connectedError_ne (e2.take 50)

/-- Claim C9: the final `database_url` and `database_name` fields depend only
    on whether the corresponding environment variables are present and
    non-empty; the unconditional recomputation at the end discards whatever an
    earlier branch wrote there (including the literal database name). -/
theorem test_database_env_flags (db : Option DBHandle) (url name : Option String) :
    (test_database db url name).database_url
      = some (if truthy url then "✅ Set" else "❌ Not Set") ∧
    (test_database db url name).database_name
      = some (if truthy name then "✅ Set" else "❌ Not Set") ∧
    (test_database db url name).database_url = (test_database none url name).database_url ∧
    (test_database db url name).database_name = (test_database none url name).database_name := by
  cases db with
  | none => exact ⟨rfl, rfl, rfl, rfl⟩
  | some h =>
      obtain ⟨hn, hc⟩ := h
      cases hc with
      | ok cols => exact ⟨rfl, rfl, rfl, rfl⟩
      | error e => exact ⟨rfl, rfl, rfl, rfl⟩

/-- Counterexample to claim C6: `shared_intakes` has no try/except wrapper, so
    a failing caregiverlink fetch escapes as an uncaught exception instead of
    being reported as HTTP 500 carrying the failure text. -/
theorem unwrapped_fetch_counterexample :
    shared_intakes (fun _ => none) 0 ⟨.ok [], .ok [], .error "database unavailable"⟩
        "tok" none none
      = .error (.exn "database unavailable") ∧
    PyError.exn "database unavailable" ≠ PyError.http 500 "database unavailable" := by
  decide

/-- Claim C6 as amended: the six handlers with their own try/except wrapper
    (`create_medication`, `list_medications`, `log_intake`, `list_intakes`,
    `get_schedule`, `create_share_link`) report every failure not given a
    specific status — persistence failures of the fetch or create, and
    validation failures of the response models — as HTTP 500 carrying the
    failure text, and never let a bare exception escape; but
    `shared_schedule` and `shared_intakes` have no wrapper: a failing database
    fetch inside them — whether in the token-validation helper or the intake
    fetch — escapes as an uncaught exception, not a 500 carrying the text. -/
theorem error_wrapping_amended (e : String) (parse : String → Option Nat)
    (now : Nat) (target : PyDate) (hexDigest : List Char)
    (f p : Option String) (payload : ShareCreate)
    (sm : Except String (List MedDoc)) (si : Except String (List IntakeDoc))
    (sc : Except String (List LinkDoc)) (tok : String)
    (mid date : Option String) :
    create_medication (.error e) = .error (.http 500 e) ∧
    log_intake (.error e) = .error (.http 500 e) ∧
    list_medications ⟨.error e, si, sc⟩ = .error (.http 500 e) ∧
    list_intakes mid date ⟨sm, .error e, sc⟩ = .error (.http 500 e) ∧
    get_schedule target ⟨.error e, si, sc⟩ = .error (.http 500 e) ∧
    create_share_link hexDigest f p payload (.error e) = .error (.http 500 e) ∧
    list_medications ⟨.ok [⟨"m1", none, none, none, none, none⟩], si, sc⟩
      = .error (.http 500 "validation error for MedicationOut") ∧
    list_intakes none none ⟨sm, .ok [⟨"i1", none, none, none, none⟩], sc⟩
      = .error (.http 500 "validation error for IntakeOut") ∧
    (∀ r : Except String String, ∀ msg, create_medication r ≠ .error (.exn msg)) ∧
    (∀ r : Except String String, ∀ msg, log_intake r ≠ .error (.exn msg)) ∧
    (∀ st : Store, ∀ msg, list_medications st ≠ .error (.exn msg)) ∧
    (∀ st : Store, ∀ msg, list_intakes mid date st ≠ .error (.exn msg)) ∧
    (∀ st : Store, ∀ msg, get_schedule target st ≠ .error (.exn msg)) ∧
    (∀ r : Except String String, ∀ msg,
      create_share_link hexDigest f p payload r ≠ .error (.exn msg)) ∧
    shared_schedule parse now ⟨sm, si, .error e⟩ tok target = .error (.exn e) ∧
    shared_intakes parse now ⟨sm, si, .error e⟩ tok none none = .error (.exn e) ∧
    shared_intakes parse now ⟨sm, .error e, .ok [⟨"idL", tok, none, none⟩]⟩ tok none none
      = .error (.exn e) := by
  refine ⟨rfl, rfl, rfl, rfl, rfl, rfl, rfl, rfl, ?_, ?_, ?_, ?_, ?_, ?_, rfl, rfl, ?_⟩
  · intro r msg
    cases r <;> simp [create_medication]
  · intro r msg
    cases r <;> simp [log_intake]
  · intro st msg
    obtain ⟨a, b, c⟩ := st
    cases a with
    | error e2 => simp [list_medications, get_documents, Except.map]
    | ok docs =>
        simp only [list_medications, get_documents, Except.map]
        split <;> simp
  · intro st msg
    obtain ⟨a, b, c⟩ := st
    cases b with
    | error e2 => simp [list_intakes, get_documents, Except.map]
    | ok docs =>
        simp only [list_intakes, get_documents, Except.map]
        split <;> simp
  · intro st msg
    obtain ⟨a, b, c⟩ := st
    cases a <;> simp [get_schedule, get_documents, Except.map]
  · intro r msg
    cases r <;> simp [create_share_link]
  · simp [shared_intakes, validate_share_token, get_documents, Except.map, intakeMatches,
      restrictDocs, truthy]

/-- Claim C7: the code contradicts it.  src/main.py line 10 imports
    `CaregiverLink` from the schemas module, but src/schemas.py declares only
    the `Medication` and `Intake` shapes, so the import fails and no validated
    CaregiverLink shape exists. -/
theorem caregiverlink_shape_missing :
    "CaregiverLink" ∈ mainSchemasImported ∧ "CaregiverLink" ∉ schemasDeclared := by
  decide

/-- A lowercase hexadecimal digit, the alphabet of `uuid.uuid4().hex`. -/
def isLowerHexChar (c : Char) : Bool :=
  ('0' ≤ c && c ≤ '9') || ('a' ≤ c && c ≤ 'f')

lemma truthy_getD (f : Option String) (h : truthy f = true) :
    (f.getD "").isEmpty = false := by
  cases f with
  | none => exact Bool.noConfusion h
  | some s =>
      simp only [truthy, Bool.not_eq_true'] at h
      simpa using h

/-- Claim C8: the returned token is the 12-character lowercase-hex prefix of
    the uuid4 hex digest (32 lowercase hex characters), the persisted link
    document carries `read_only = true` with the supplied restriction and
    expiry, and the returned url is `<base>/?share=<token>` with the primary
    frontend-URL variable preferred over the secondary, or the bare token when
    neither is configured. -/
theorem create_share_link_spec (hexDigest : List Char) (f p : Option String)
    (payload : ShareCreate) (med_id : String)
    (hlen : hexDigest.length = 32)
    (hhex : ∀ c ∈ hexDigest, isLowerHexChar c = true) :
    (shareToken hexDigest).length = 12 ∧
    (∀ c ∈ (shareToken hexDigest).data, isLowerHexChar c = true) ∧
    shareDoc hexDigest payload =
      ⟨shareToken hexDigest, true, payload.expires_at, payload.medication_ids⟩ ∧
    create_share_link hexDigest f p payload (.ok med_id) =
      .ok ⟨shareToken hexDigest,
        if truthy f then f.getD "" ++ "/?share=" ++ shareToken hexDigest
        else if truthy p then p.getD "" ++ "/?share=" ++ shareToken hexDigest
        else shareToken hexDigest⟩ := by
  refine ⟨?_, ?_, rfl, ?_⟩
  · have h1 : (shareToken hexDigest).length = (hexDigest.take 12).length := rfl
    rw [h1, List.length_take, hlen]
    decide
  · intro c hc
    have hc2 : c ∈ hexDigest.take 12 := hc
    exact hhex c (List.take_subset 12 hexDigest hc2)
  · by_cases h1 : truthy f
    · have h1e := truthy_getD f h1
      simp [create_share_link, shareBase, h1, h1e]
    · by_cases h2 : truthy p
      · have h2e := truthy_getD p h2
        simp [create_share_link, shareBase, h1, h2, h2e]
      · have he : ("" : String).isEmpty = true := rfl
        simp [create_share_link, shareBase, h1, h2, he]

/-- Witness for C8 at a concrete digest and environment. -/
theorem create_share_link_spec_witness :
    (shareToken ("0123456789abcdef0123456789abcdef").data).length = 12 ∧
    (∀ c ∈ (shareToken ("0123456789abcdef0123456789abcdef").data).data,
      isLowerHexChar c = true) ∧
    shareDoc ("0123456789abcdef0123456789abcdef").data
        ⟨some ["A"], some "2025-01-01T00:00:00"⟩ =
      ⟨shareToken ("0123456789abcdef0123456789abcdef").data, true,
        (⟨some ["A"], some "2025-01-01T00:00:00"⟩ : ShareCreate).expires_at,
        (⟨some ["A"], some "2025-01-01T00:00:00"⟩ : ShareCreate).medication_ids⟩ ∧
    create_share_link ("0123456789abcdef0123456789abcdef").data
        (some "https://pill.example") none ⟨some ["A"], some "2025-01-01T00:00:00"⟩
        (.ok "newid") =
      .ok ⟨shareToken ("0123456789abcdef0123456789abcdef").data,
        if truthy (some "https://pill.example") then
          (some "https://pill.example").getD "" ++ "/?share=" ++
            shareToken ("0123456789abcdef0123456789abcdef").data
        else if truthy (none : Option String) then
          (none : Option String).getD "" ++ "/?share=" ++
            shareToken ("0123456789abcdef0123456789abcdef").data
        else shareToken ("0123456789abcdef0123456789abcdef").data⟩ :=
  create_share_link_spec ("0123456789abcdef0123456789abcdef").data
    (some "https://pill.example") none ⟨some ["A"], some "2025-01-01T00:00:00"⟩
    "newid" (by decide) (by decide)

end PillReminder
